import Mathlib

/-!
# Evidence Lifecycle and Chain-of-Custody Ledger — verification development

Shallow embedding of the `evidence` package (pkg/speech/recognizer.go, second
compilation unit: `package evidence`) together with the in-memory repositories
and the CLI evidence handler from the application main package.

Modelling conventions:
* Go `string` fields stay `String`; `EvidenceType` and `EvidenceStatus` are
  plain strings in Go (`type EvidenceType string`), so they are `String` here
  with the named constants of the source.
* `time.Time` values are modelled as `Nat` instants; every operation that calls
  `time.Now()` receives the instant `now` as an explicit parameter.
* The file system is a map `path -> Option bytes`; a file is a `List Nat` of
  bytes.  `os.Open`/`os.Stat` fail exactly when the path is absent.
* The `crypto/sha256` library digest is implemented (FIPS 180-4) over byte
  lists, with 32-bit words as `Nat` reduced mod 2^32.
* Go's comma-ok type assertion `interface{}(e).(DigitalEvidence)` on a value
  whose static type is `*Evidence` always yields `ok = false` (the dynamic
  type stored in the interface is `*Evidence`, never the struct type
  `DigitalEvidence`); it is modelled by `typeAssertDigitalEvidence`, which is
  constantly `none`.
-/

namespace Ledger

/-- File contents: a list of bytes (each intended `< 256`; word packing reduces
mod 256 so the definitions are total). -/
abbrev Bytes := List Nat

/-- The file system seen by `os.Open`/`os.Stat`: path to contents. -/
abbrev FileSystem := String → Option Bytes

/-! ## SHA-256 (crypto/sha256), FIPS 180-4, over byte lists -/

/-- Reduce to a 32-bit word. -/
def w32 (n : Nat) : Nat := n % 4294967296

/-- Rotate the 32-bit word `x` right by `n` positions. -/
def rotr32 (n x : Nat) : Nat := w32 ((x >>> n) ||| (x <<< (32 - n)))

def shaCh (x y z : Nat) : Nat := (x &&& y) ^^^ ((x ^^^ 4294967295) &&& z)

def shaMaj (x y z : Nat) : Nat := (x &&& y) ^^^ (x &&& z) ^^^ (y &&& z)

def shaBigSigma0 (x : Nat) : Nat := rotr32 2 x ^^^ rotr32 13 x ^^^ rotr32 22 x

def shaBigSigma1 (x : Nat) : Nat := rotr32 6 x ^^^ rotr32 11 x ^^^ rotr32 25 x

def shaSmallSigma0 (x : Nat) : Nat := rotr32 7 x ^^^ rotr32 18 x ^^^ (x >>> 3)

def shaSmallSigma1 (x : Nat) : Nat := rotr32 17 x ^^^ rotr32 19 x ^^^ (x >>> 10)

/-- The 64 round constants of SHA-256 (FIPS 180-4 section 4.2.2), written as
decimal `Nat` literals. -/
def shaK : List Nat :=
  [1116352408, 1899447441, 3049323471, 3921009573, 961987163,
   1508970993, 2453635748, 2870763221, 3624381080, 310598401,
   607225278, 1426881987, 1925078388, 2162078206, 2614888103,
   3248222580, 3835390401, 4022224774, 264347078, 604807628,
   770255983, 1249150122, 1555081692, 1996064986, 2554220882,
   2821834349, 2952996808, 3210313671, 3336571891, 3584528711,
   113926993, 338241895, 666307205, 773529912, 1294757372,
   1396182291, 1695183700, 1986661051, 2177026350, 2456956037,
   2730485921, 2820302411, 3259730800, 3345764771, 3516065817,
   3600352804, 4094571909, 275423344, 430227734, 506948616,
   659060556, 883997877, 958139571, 1322822218, 1537002063,
   1747873779, 1955562222, 2024104815, 2227730452, 2361852424,
   2428436474, 2756734187, 3204031479, 3329325298]

/-- The initial hash value of SHA-256 (FIPS 180-4 section 5.3.3), decimal. -/
def shaH0 : List Nat :=
  [1779033703, 3144134277, 1013904242, 2773480762, 1359893119,
   2600822924, 528734635, 1541459225]

/-- Big-endian bytes of `n`, `k` bytes wide. -/
def natToBytesBE (k n : Nat) : List Nat :=
  (List.range k).map (fun i => (n >>> (8 * (k - 1 - i))) % 256)

/-- SHA-256 padding: append `0x80`, zero bytes to 56 mod 64, then the bit
length as 8 big-endian bytes. -/
def sha256Pad (msg : Bytes) : Bytes :=
  msg ++ [0x80] ++ List.replicate ((119 - msg.length % 64) % 64) 0
      ++ natToBytesBE 8 (8 * msg.length)

/-- Split a byte list into 64-byte chunks (structurally recursive on a fuel
bound so that it reduces definitionally; `fuel = l.length` always suffices
because every step consumes at least one element). -/
def chunksAux : Nat → List Nat → List (List Nat)
  | 0, _ => []
  | _, [] => []
  | fuel + 1, a :: rest => ((a :: rest).take 64) :: chunksAux fuel ((a :: rest).drop 64)

/-- Split a byte list into 64-byte chunks. -/
def chunks64 (l : List Nat) : List (List Nat) := chunksAux l.length l

/-- Pack bytes into big-endian 32-bit words. -/
def bytesToWordsBE : List Nat → List Nat
  | b0 :: b1 :: b2 :: b3 :: rest =>
      (((b0 % 256) <<< 24) ||| ((b1 % 256) <<< 16) ||| ((b2 % 256) <<< 8) ||| (b3 % 256))
        :: bytesToWordsBE rest
  | _ => []

/-- One message-schedule extension step: append
`σ1 w[i-2] + w[i-7] + σ0 w[i-15] + w[i-16]`. -/
def shaExtendStep (ws : List Nat) : List Nat :=
  ws ++ [w32 (ws.getD (ws.length - 16) 0 + shaSmallSigma0 (ws.getD (ws.length - 15) 0)
        + ws.getD (ws.length - 7) 0 + shaSmallSigma1 (ws.getD (ws.length - 2) 0))]

/-- Extend 16 schedule words to 64. -/
def shaSchedule (ws : List Nat) : List Nat := shaExtendStep^[48] ws

/-- One compression round on the 8-word working state. -/
def shaCompressWord (kw : Nat × Nat) (st : List Nat) : List Nat :=
  match st with
  | [a, b, c, d, e, f, g, h] =>
      let t1 := w32 (h + shaBigSigma1 e + shaCh e f g + kw.1 + kw.2)
      let t2 := w32 (shaBigSigma0 a + shaMaj a b c)
      [w32 (t1 + t2), a, b, c, w32 (d + t1), e, f, g]
  | other => other

/-- Compress one 64-byte block into the running hash. -/
def shaCompressBlock (hs : List Nat) (block : List Nat) : List Nat :=
  let st := ((shaK.zip (shaSchedule (bytesToWordsBE block))).foldl
    (fun s kw => shaCompressWord kw s) hs)
  (hs.zip st).map (fun p => w32 (p.1 + p.2))

/-- The eight 32-bit words of the SHA-256 digest of `msg`. -/
def sha256Words (msg : Bytes) : List Nat :=
  (chunks64 (sha256Pad msg)).foldl shaCompressBlock shaH0

/-- Lowercase hex digit. -/
def hexDigit (n : Nat) : Char :=
  if n < 10 then Char.ofNat (48 + n) else Char.ofNat (87 + n % 16)

/-- `n` as `width` lowercase hex digits, big-endian. -/
def natToHex (width n : Nat) : String :=
  String.mk ((List.range width).map (fun i => hexDigit ((n >>> (4 * (width - 1 - i))) % 16)))

/-- `hex.EncodeToString(sha256(msg))`: the 64-character lowercase hex digest. -/
def sha256Hex (msg : Bytes) : String :=
  String.join ((sha256Words msg).map (natToHex 8))

/-! ## Data model (`package evidence`) -/

/-- `EvidenceType` is `type EvidenceType string` in the source. -/
abbrev EvidenceType := String

def TypePhysical : EvidenceType := "PHYSICAL"

def TypeDigital : EvidenceType := "DIGITAL"

def TypeDocument : EvidenceType := "DOCUMENT"

/-- `EvidenceStatus` is `type EvidenceStatus string` in the source. -/
abbrev EvidenceStatus := String

def StatusCollected : EvidenceStatus := "COLLECTED"

def StatusReleased : EvidenceStatus := "RELEASED"

def StatusDestroyed : EvidenceStatus := "DESTROYED"

/-- `CollectionDetails` struct (all-string fields). -/
structure CollectionDetails where
  weather : String
  lightingCondition : String
  temperature : String
  environment : String
  packaging : String
  containedWithin : String
  preservationMethod : String
deriving DecidableEq

/-- `Location` struct. -/
structure Location where
  description : String
  address : String
  room : String
  gps : String
  mapReference : String
  locationNotes : String
  photoReference : String
deriving DecidableEq

/-- `CustodyEvent`: one entry in the chain of custody. -/
structure CustodyEvent where
  id : String
  evidenceID : String
  timestamp : Nat
  action : String
  fromPerson : String
  toPerson : String
  fromLocation : String
  toLocation : String
  reason : String
  notes : String
  documentID : String
  authorizedBy : String
  transportMethod : String
  verificationMethod : String
deriving DecidableEq

/-- `Evidence`: an item of evidence; `ChainOfCustody` is an inline slice field
of the record, and `FileHash` is the only hash field of the base struct. -/
structure Evidence where
  id : String
  caseID : String
  evidenceNumber : String
  description : String
  type : EvidenceType
  status : EvidenceStatus
  collectedBy : String
  collectionDate : Nat
  collectionMethod : String
  collectionNotes : String
  collectionDetails : Option CollectionDetails
  location : Location
  storageLocation : String
  chainOfCustody : List CustodyEvent
  tags : List String
  relatedEvidence : List String
  imagePaths : List String
  fileHash : String
  isConfidential : Bool
  notes : String
  createdAt : Nat
  updatedAt : Nat
deriving DecidableEq

/-- `DigitalEvidence` embeds `Evidence` (field `evidence` models the embedded
struct; Go's promoted `e.FileHash` is `e.evidence.fileHash`) and adds
digital-only fields, among them `OriginalHash`. -/
structure DigitalEvidence where
  evidence : Evidence
  fileType : String
  filePath : String
  fileSize : Nat
  creationDate : Nat
  modifiedDate : Nat
  deviceSource : String
  originalHash : String
  workingCopyHash : String
  extractionMethod : String
  encrypted : Bool
  decrypted : Bool
  password : String
  metadata : List (String × String)
deriving DecidableEq

/-- The Go zero value of `Location` (all fields empty). -/
def zeroLocation : Location :=
  { description := "", address := "", room := "", gps := "", mapReference := ""
    locationNotes := "", photoReference := "" }

/-- The Go zero value of `Evidence` (struct literal with no fields set). -/
def zeroEvidence : Evidence :=
  { id := "", caseID := "", evidenceNumber := "", description := "", type := ""
    status := "", collectedBy := "", collectionDate := 0, collectionMethod := ""
    collectionNotes := "", collectionDetails := none, location := zeroLocation
    storageLocation := "", chainOfCustody := [], tags := [], relatedEvidence := []
    imagePaths := [], fileHash := "", isConfidential := false, notes := ""
    createdAt := 0, updatedAt := 0 }

/-! ## Hashing utility and helpers -/

/-- `calculateFileHash`: opens the file and returns the hex-encoded SHA-256 of
its contents; fails when the path does not resolve. -/
def calculateFileHash (fs : FileSystem) (filePath : String) : Except String String :=
  match fs filePath with
  | none => .error ("failed to open file: " ++ filePath)
  | some bytes => .ok (sha256Hex bytes)

/-- `generateID`: prefixed timestamp-based ID (`fmt.Sprintf("%s-%d", p, now)`). -/
def generateID (p : String) (now : Nat) : String := p ++ "-" ++ toString now

/-- Go's comma-ok assertion `interface{}(e).(DigitalEvidence)` where `e` has
static type `*Evidence`: the interface's dynamic type is the pointer type
`*Evidence`, never the struct type `DigitalEvidence`, so `ok` is always
`false`.  Modelled as the constantly-`none` conversion. -/
def typeAssertDigitalEvidence (_e : Evidence) : Option DigitalEvidence := none

/-- `filepath.Ext`, scanning from the end up to a path separator for a dot
(helper on the reversed character list, `acc` holds the suffix read so far). -/
def extFromRev : List Char → List Char → String
  | _, [] => ""
  | acc, c :: rest =>
      if c = '/' then ""
      else if c = '.' then String.mk ('.' :: acc)
      else extFromRev (c :: acc) rest

/-- `filepath.Ext(path)`. -/
def filepathExt (path : String) : String := extFromRev [] path.toList.reverse

/-- `strings.ToUpper` restricted to ASCII (the CLI passes ASCII type names). -/
def asciiToUpper (s : String) : String :=
  String.mk (s.toList.map (fun c => if 'a' ≤ c ∧ c ≤ 'z' then Char.ofNat (c.toNat - 32) else c))

/-! ## In-memory repositories (application main package) -/

/-- `inMemoryEvidenceRepo`: a Go map `map[string]*Evidence`. -/
abbrev EvidenceRepo := String → Option Evidence

/-- The empty repository. -/
def emptyRepo : EvidenceRepo := fun _ => none

/-- `inMemoryEvidenceRepo.Save`: `r.evidence[e.ID] = e`. -/
def repoSave (r : EvidenceRepo) (e : Evidence) : EvidenceRepo :=
  fun id => if id = e.id then some e else r id

/-- `inMemoryEvidenceRepo.Find`: map lookup, error when absent. -/
def repoFind (r : EvidenceRepo) (id : String) : Except String Evidence :=
  match r id with
  | some e => .ok e
  | none => .error ("evidence not found: " ++ id)

/-- `inMemoryEvidenceRepo.Update`: same map write as `Save`. -/
def repoUpdate (r : EvidenceRepo) (e : Evidence) : EvidenceRepo := repoSave r e

/-- A case record (`casemanagement.Case`); only identity matters to the
evidence core. -/
structure Case where
  id : String
deriving DecidableEq

/-- `inMemoryCaseRepo`: a Go map `map[string]*Case`. -/
abbrev CaseRepo := String → Option Case

/-- `inMemoryCaseRepo.Find` / `CaseService.GetCase` (which just delegates):
map lookup, error when absent. -/
def caseGet (cr : CaseRepo) (id : String) : Except String Case :=
  match cr id with
  | some c => .ok c
  | none => .error ("case not found: " ++ id)

/-! ## EvidenceService operations

Each operation takes the instant `now` (for `time.Now()`) and, where files are
read, the file system `fs`.  Mutating operations return the new repository;
returning `.error` models the Go early `return err`, under which the caller's
repository is untouched. -/

/-- The digital-hash step of `CreateEvidence` (lines 240-249): guarded by
`e.Type == TypeDigital && e.FileHash == ""`, then by the comma-ok type
assertion, which never succeeds, so the body falls through. -/
def hashStep (fs : FileSystem) (e : Evidence) : Except String Evidence :=
  if e.type = TypeDigital ∧ e.fileHash = "" then
    match typeAssertDigitalEvidence e with
    | some de =>
        match calculateFileHash fs de.filePath with
        | .error err => .error ("failed to calculate file hash: " ++ err)
        | .ok h => .ok { e with fileHash := h }
    | none => .ok e
  else .ok e

/-- The initial `COLLECTED` custody event built by `CreateEvidence`
(lines 253-266). -/
def initialCustodyEvent (now : Nat) (e : Evidence) : CustodyEvent :=
  { id := generateID "CE" now
    evidenceID := e.id
    timestamp := e.collectionDate
    action := "COLLECTED"
    fromPerson := ""
    toPerson := e.collectedBy
    fromLocation := e.location.description ++ ", " ++ e.location.address
    toLocation := e.storageLocation
    reason := "Initial collection"
    notes := e.collectionNotes
    documentID := "", authorizedBy := "", transportMethod := "", verificationMethod := "" }

/-- Lines 227-229 of `CreateEvidence`: assign a generated ID when empty. -/
def assignID (now : Nat) (e : Evidence) : Evidence :=
  if e.id = "" then { e with id := generateID "EV" now } else e

/-- Lines 231-233: stamp `createdAt` and `updatedAt` with `now`. -/
def stampTimes (now : Nat) (e : Evidence) : Evidence :=
  { e with createdAt := now, updatedAt := now }

/-- Lines 235-237: default the status to `COLLECTED` when empty. -/
def defaultStatus (e : Evidence) : Evidence :=
  if e.status = "" then { e with status := StatusCollected } else e

/-- Lines 252-267: initialise the chain of custody with the collection event
when it is empty. -/
def initChain (now : Nat) (e : Evidence) : Evidence :=
  if e.chainOfCustody.isEmpty
    then { e with chainOfCustody := [initialCustodyEvent now e] } else e

/-- `EvidenceService.CreateEvidence`: assigns an ID if absent, stamps
`createdAt`/`updatedAt`, defaults the status, runs the (dead) digital-hash
step, initialises the chain of custody when empty, and saves.  Returns the
saved record (the Go code mutates `*e` in place) and the new repository. -/
def CreateEvidence (fs : FileSystem) (now : Nat) (r : EvidenceRepo) (e0 : Evidence) :
    Except String (Evidence × EvidenceRepo) :=
  match hashStep fs (defaultStatus (stampTimes now (assignID now e0))) with
  | .error err => .error err
  | .ok e4 =>
      let e5 := initChain now e4
      .ok (e5, repoSave r e5)

/-- `EvidenceService.GetEvidence`. -/
def GetEvidence (r : EvidenceRepo) (id : String) : Except String Evidence :=
  repoFind r id

/-- `EvidenceService.UpdateEvidence`: stamps `updatedAt` and writes the given
record as-is. -/
def UpdateEvidence (now : Nat) (r : EvidenceRepo) (e : Evidence) :
    Except String EvidenceRepo :=
  .ok (repoUpdate r { e with updatedAt := now })

/-- The `TRANSFERRED` custody event built by `TransferCustody`. -/
def transferEvent (now : Nat) (evidenceID fromPerson toPerson fromLocation
    toLocation reason notes : String) : CustodyEvent :=
  { id := generateID "CE" now
    evidenceID := evidenceID
    timestamp := now
    action := "TRANSFERRED"
    fromPerson := fromPerson
    toPerson := toPerson
    fromLocation := fromLocation
    toLocation := toLocation
    reason := reason
    notes := notes
    documentID := "", authorizedBy := "", transportMethod := "", verificationMethod := "" }

/-- The record written back by `TransferCustody` (lines 307-311): the found
record with the event appended, the storage location moved, and `updatedAt`
stamped. -/
def transferredRecord (now : Nat) (ev : Evidence) (evidenceID fromPerson toPerson
    fromLocation toLocation reason notes : String) : Evidence :=
  { ev with
    chainOfCustody := ev.chainOfCustody
      ++ [transferEvent now evidenceID fromPerson toPerson fromLocation toLocation reason notes]
    storageLocation := toLocation
    updatedAt := now }

/-- `EvidenceService.TransferCustody`: loads the item (error when absent),
appends one `TRANSFERRED` event to the chain, sets
`storageLocation := toLocation` and `updatedAt := now`, and updates the store.
The source performs no status check of any kind. -/
def TransferCustody (now : Nat) (r : EvidenceRepo) (evidenceID fromPerson toPerson
    fromLocation toLocation reason notes : String) : Except String EvidenceRepo :=
  match repoFind r evidenceID with
  | .error err => .error ("failed to find evidence: " ++ err)
  | .ok evidence =>
      .ok (repoUpdate r (transferredRecord now evidence evidenceID fromPerson toPerson
        fromLocation toLocation reason notes))

/-- The hash comparison of `VerifyIntegrity` (line 341 of the source):
`currentHash == evidence.FileHash`, against the stored base record. -/
def verifyIntegrityCompare (currentHash : String) (stored : Evidence) : Bool :=
  currentHash == stored.fileHash

/-- `EvidenceService.VerifyIntegrity`: loads the item, rejects non-digital
types, then attempts the comma-ok assertion to `DigitalEvidence` — which
always fails — so the hash-comparing branch is unreachable. -/
def VerifyIntegrity (fs : FileSystem) (r : EvidenceRepo) (evidenceID : String) :
    Except String Bool :=
  match repoFind r evidenceID with
  | .error err => .error ("failed to find evidence: " ++ err)
  | .ok evidence =>
      if evidence.type ≠ TypeDigital then
        .error "integrity verification is only applicable to digital evidence"
      else
        match typeAssertDigitalEvidence evidence with
        | some de =>
            match calculateFileHash fs de.filePath with
            | .error err => .error ("failed to calculate current file hash: " ++ err)
            | .ok currentHash => .ok (verifyIntegrityCompare currentHash evidence)
        | none => .error "failed to convert to digital evidence type"

/-- `EvidenceService.CreateDigitalEvidence`: stats the file (error when
absent), fills size and extension, computes the SHA-256 digest and writes it
to both the embedded record's `fileHash` and the wrapper's `originalHash`,
forces the type to `DIGITAL`, and calls `CreateEvidence` on the embedded base
record (`&e.Evidence`), which is the value persisted.  Returns the final
wrapper (its embedded base mutated in place by `CreateEvidence`), the
persisted base record, and the new repository. -/
def CreateDigitalEvidence (fs : FileSystem) (now : Nat) (r : EvidenceRepo)
    (e : DigitalEvidence) : Except String (DigitalEvidence × Evidence × EvidenceRepo) :=
  match fs e.filePath with
  | none => .error ("failed to get file info: " ++ e.filePath)
  | some bytes =>
      let e1 := { e with fileSize := bytes.length, fileType := filepathExt e.filePath }
      match calculateFileHash fs e1.filePath with
      | .error err => .error ("failed to calculate file hash: " ++ err)
      | .ok hash =>
          let e2 := { e1 with
            evidence := { e1.evidence with fileHash := hash, type := TypeDigital }
            originalHash := hash }
          match CreateEvidence fs now r e2.evidence with
          | .error err => .error err
          | .ok (base, r2) => .ok ({ e2 with evidence := base }, base, r2)

/-! ## CLI evidence handler (application main package) -/

/-- `InvestigatorApp.handleEvidenceAdd`: validates a non-empty description and
a resolvable case ID, then builds the record and calls `CreateEvidence`.  The
Go code reports the error and calls `os.Exit(1)`, modelled as `.error` (no
repository change escapes). -/
def handleEvidenceAdd (fs : FileSystem) (now : Nat) (cases : CaseRepo)
    (currentCaseID : String) (r : EvidenceRepo) (description evidenceType caseID : String) :
    Except String (Evidence × EvidenceRepo) :=
  if description = "" then .error "Evidence description is required"
  else if caseID = "" ∧ currentCaseID = "" then
    .error "No case specified and no case is currently open"
  else
    let cid := if caseID = "" then currentCaseID else caseID
    match caseGet cases cid with
    | .error err => .error ("Case not found: " ++ err)
    | .ok _ =>
        CreateEvidence fs now r { zeroEvidence with
          description := description
          caseID := cid
          type := asciiToUpper evidenceType
          status := StatusCollected
          collectedBy := "Current User"
          collectionDate := now
          location := { zeroLocation with description := "Not specified" }
          storageLocation := "Evidence Locker" }

/-! ## Derived forms and invariants -/

/-- The record `CreateEvidence` actually persists (the hash step is the
identity, see `hashStep_eq` below). -/
def finalizeEvidence (now : Nat) (e : Evidence) : Evidence :=
  initChain now (defaultStatus (stampTimes now (assignID now e)))

/-- The base record persisted by `CreateDigitalEvidence` for a file with
contents `bytes`. -/
def digitalBaseRecord (now : Nat) (de : DigitalEvidence) (bytes : Bytes) : Evidence :=
  finalizeEvidence now
    { de.evidence with fileHash := sha256Hex bytes, type := TypeDigital }

/-- The wrapper value after `CreateDigitalEvidence` returns (its embedded
base mutated in place by `CreateEvidence`). -/
def digitalWrapperRecord (now : Nat) (de : DigitalEvidence) (bytes : Bytes) : DigitalEvidence :=
  { de with
    fileSize := bytes.length
    fileType := filepathExt de.filePath
    evidence := digitalBaseRecord now de bytes
    originalHash := sha256Hex bytes }

/-- Repository well-formedness: every stored record sits under its own ID
(the in-memory repository only ever writes `r.evidence[e.ID] = e`). -/
def repoWF (r : EvidenceRepo) : Prop := ∀ k e, r k = some e → e.id = k

/-- Frame relation: `b` agrees with `a` on every field except the chain of
custody, the current storage location, and `updatedAt`. -/
def custodyFrame (a b : Evidence) : Prop :=
  b = { a with
    chainOfCustody := b.chainOfCustody
    storageLocation := b.storageLocation
    updatedAt := b.updatedAt }

/-- Location-consistency invariant: the storage location equals the
`toLocation` of the most recent custody event. -/
def locationConsistent (e : Evidence) : Bool :=
  match e.chainOfCustody.getLast? with
  | some c => c.toLocation == e.storageLocation
  | none => false

/-- Arguments of one `TransferCustody` call. -/
structure TransferArgs where
  now : Nat
  evidenceID : String
  fromPerson : String
  toPerson : String
  fromLocation : String
  toLocation : String
  reason : String
  notes : String

/-- Run one `TransferCustody` call, keeping the old state on error (the Go
caller's map is untouched when the service returns early). -/
def applyTransfer (r : EvidenceRepo) (t : TransferArgs) : EvidenceRepo :=
  match TransferCustody t.now r t.evidenceID t.fromPerson t.toPerson t.fromLocation
      t.toLocation t.reason t.notes with
  | .ok r2 => r2
  | .error _ => r

/-- Run a sequence of `TransferCustody` calls. -/
def applyTransfers (ts : List TransferArgs) (r : EvidenceRepo) : EvidenceRepo :=
  ts.foldl applyTransfer r

/-- Whether an `Except` result is a success. -/
def exceptIsOk {α β : Type} : Except α β → Bool
  | .ok _ => true
  | .error _ => false

/-! ## Basic lemmas -/

/-- The digital-hash step of `CreateEvidence` is the identity: the comma-ok
type assertion never succeeds, so no hash is ever computed there and the step
never fails. -/
theorem hashStep_eq (fs : FileSystem) (e : Evidence) : hashStep fs e = .ok e := by
  unfold hashStep typeAssertDigitalEvidence
  split <;> rfl

/-- `CreateEvidence` always succeeds and persists `finalizeEvidence now e0`. -/
theorem CreateEvidence_eq (fs : FileSystem) (now : Nat) (r : EvidenceRepo) (e0 : Evidence) :
    CreateEvidence fs now r e0 =
      .ok (finalizeEvidence now e0, repoSave r (finalizeEvidence now e0)) := by
  unfold CreateEvidence finalizeEvidence
  rw [hashStep_eq]

theorem assignID_status (now : Nat) (e : Evidence) : (assignID now e).status = e.status := by
  unfold assignID; split <;> rfl

theorem assignID_type (now : Nat) (e : Evidence) : (assignID now e).type = e.type := by
  unfold assignID; split <;> rfl

theorem assignID_fileHash (now : Nat) (e : Evidence) :
    (assignID now e).fileHash = e.fileHash := by
  unfold assignID; split <;> rfl

theorem assignID_description (now : Nat) (e : Evidence) :
    (assignID now e).description = e.description := by
  unfold assignID; split <;> rfl

theorem assignID_chain (now : Nat) (e : Evidence) :
    (assignID now e).chainOfCustody = e.chainOfCustody := by
  unfold assignID; split <;> rfl

theorem assignID_storage (now : Nat) (e : Evidence) :
    (assignID now e).storageLocation = e.storageLocation := by
  unfold assignID; split <;> rfl

theorem stampTimes_type (now : Nat) (e : Evidence) : (stampTimes now e).type = e.type := rfl

theorem stampTimes_fileHash (now : Nat) (e : Evidence) :
    (stampTimes now e).fileHash = e.fileHash := rfl

theorem stampTimes_description (now : Nat) (e : Evidence) :
    (stampTimes now e).description = e.description := rfl

theorem stampTimes_chain (now : Nat) (e : Evidence) :
    (stampTimes now e).chainOfCustody = e.chainOfCustody := rfl

theorem stampTimes_storage (now : Nat) (e : Evidence) :
    (stampTimes now e).storageLocation = e.storageLocation := rfl

theorem defaultStatus_type (e : Evidence) : (defaultStatus e).type = e.type := by
  unfold defaultStatus; split <;> rfl

theorem defaultStatus_fileHash (e : Evidence) : (defaultStatus e).fileHash = e.fileHash := by
  unfold defaultStatus; split <;> rfl

theorem defaultStatus_description (e : Evidence) :
    (defaultStatus e).description = e.description := by
  unfold defaultStatus; split <;> rfl

theorem defaultStatus_chain (e : Evidence) :
    (defaultStatus e).chainOfCustody = e.chainOfCustody := by
  unfold defaultStatus; split <;> rfl

theorem defaultStatus_storage (e : Evidence) :
    (defaultStatus e).storageLocation = e.storageLocation := by
  unfold defaultStatus; split <;> rfl

theorem initChain_type (now : Nat) (e : Evidence) : (initChain now e).type = e.type := by
  unfold initChain; split <;> rfl

theorem initChain_fileHash (now : Nat) (e : Evidence) :
    (initChain now e).fileHash = e.fileHash := by
  unfold initChain; split <;> rfl

theorem initChain_description (now : Nat) (e : Evidence) :
    (initChain now e).description = e.description := by
  unfold initChain; split <;> rfl

theorem initChain_storage (now : Nat) (e : Evidence) :
    (initChain now e).storageLocation = e.storageLocation := by
  unfold initChain; split <;> rfl

theorem finalize_type (now : Nat) (e : Evidence) :
    (finalizeEvidence now e).type = e.type := by
  unfold finalizeEvidence
  rw [initChain_type, defaultStatus_type, stampTimes_type, assignID_type]

theorem finalize_fileHash (now : Nat) (e : Evidence) :
    (finalizeEvidence now e).fileHash = e.fileHash := by
  unfold finalizeEvidence
  rw [initChain_fileHash, defaultStatus_fileHash, stampTimes_fileHash, assignID_fileHash]

theorem finalize_description (now : Nat) (e : Evidence) :
    (finalizeEvidence now e).description = e.description := by
  unfold finalizeEvidence
  rw [initChain_description, defaultStatus_description, stampTimes_description,
    assignID_description]

/-- When the input chain of custody is empty, the persisted chain is exactly
the one initial collection event. -/
theorem finalize_chain_of_empty (now : Nat) (e : Evidence)
    (h : e.chainOfCustody = []) :
    (finalizeEvidence now e).chainOfCustody
      = [initialCustodyEvent now (defaultStatus (stampTimes now (assignID now e)))] := by
  have hch : (defaultStatus (stampTimes now (assignID now e))).chainOfCustody = [] := by
    rw [defaultStatus_chain, stampTimes_chain, assignID_chain]
    exact h
  unfold finalizeEvidence initChain
  simp [hch]

/-- Saving a record makes it visible under its own ID. -/
theorem repoSave_self (r : EvidenceRepo) (e : Evidence) : repoSave r e e.id = some e := by
  simp [repoSave]

/-- `repoSave` preserves repository well-formedness. -/
theorem repoSave_wf (r : EvidenceRepo) (e : Evidence) (hwf : repoWF r) :
    repoWF (repoSave r e) := by
  intro k x hx
  by_cases hk : k = e.id
  · subst hk
    simp [repoSave] at hx
    simp [hx]
  · simp [repoSave, hk] at hx
    exact hwf k x hx

/-- The empty repository is well-formed. -/
theorem emptyRepo_wf : repoWF emptyRepo := by
  intro k x hx
  simp [emptyRepo] at hx

theorem custodyFrame_refl (e : Evidence) : custodyFrame e e := rfl

theorem custodyFrame_trans {a b c : Evidence} (h1 : custodyFrame a b)
    (h2 : custodyFrame b c) : custodyFrame a c := by
  unfold custodyFrame at *
  rw [h2, h1]

theorem custodyFrame_fileHash {a b : Evidence} (h : custodyFrame a b) :
    b.fileHash = a.fileHash := by
  rw [h]

/-- `TransferCustody` on a present item writes back the transferred record. -/
theorem TransferCustody_found (now : Nat) (r : EvidenceRepo) (eid f t fl tl rs ns : String)
    (ev : Evidence) (hfind : r eid = some ev) :
    TransferCustody now r eid f t fl tl rs ns
      = .ok (repoUpdate r (transferredRecord now ev eid f t fl tl rs ns)) := by
  unfold TransferCustody repoFind
  rw [hfind]

/-- `TransferCustody` on a missing item fails with the wrapped not-found
error (and, returning early, leaves the caller's store untouched). -/
theorem TransferCustody_missing (now : Nat) (r : EvidenceRepo) (eid f t fl tl rs ns : String)
    (hfind : r eid = none) :
    TransferCustody now r eid f t fl tl rs ns
      = .error ("failed to find evidence: " ++ ("evidence not found: " ++ eid)) := by
  unfold TransferCustody repoFind
  rw [hfind]

/-- One `TransferCustody` call (applied via `applyTransfer`) leaves every
record it does not rewrite in place, and rewrites its target only within the
custody frame. -/
theorem applyTransfer_frame (r : EvidenceRepo) (t : TransferArgs) (id : String)
    (ev : Evidence) (hwf : repoWF r) (hfind : r id = some ev) :
    ∃ ev2, applyTransfer r t id = some ev2 ∧ custodyFrame ev ev2 := by
  rcases hcase : r t.evidenceID with _ | evid
  · refine ⟨ev, ?_, custodyFrame_refl ev⟩
    unfold applyTransfer
    rw [TransferCustody_missing t.now r _ _ _ _ _ _ _ hcase]
    exact hfind
  · have hid : evid.id = t.evidenceID := hwf _ _ hcase
    by_cases heq : id = t.evidenceID
    · subst heq
      have hev : evid = ev := by
        rw [hcase] at hfind
        exact Option.some.inj hfind
      subst hev
      refine ⟨transferredRecord t.now evid t.evidenceID t.fromPerson t.toPerson t.fromLocation
        t.toLocation t.reason t.notes, ?_, ?_⟩
      · unfold applyTransfer
        rw [TransferCustody_found t.now r _ _ _ _ _ _ _ evid hcase]
        simp [repoUpdate, repoSave, transferredRecord, hid]
      · unfold custodyFrame transferredRecord
        rfl
    · refine ⟨ev, ?_, custodyFrame_refl ev⟩
      unfold applyTransfer
      rw [TransferCustody_found t.now r _ _ _ _ _ _ _ evid hcase]
      have : (transferredRecord t.now evid t.evidenceID t.fromPerson t.toPerson
          t.fromLocation t.toLocation t.reason t.notes).id = t.evidenceID := hid
      simp [repoUpdate, repoSave, this, heq]
      exact hfind

/-- `applyTransfer` preserves repository well-formedness. -/
theorem applyTransfer_wf (r : EvidenceRepo) (t : TransferArgs) (hwf : repoWF r) :
    repoWF (applyTransfer r t) := by
  rcases hcase : r t.evidenceID with _ | evid
  · unfold applyTransfer
    rw [TransferCustody_missing t.now r _ _ _ _ _ _ _ hcase]
    exact hwf
  · unfold applyTransfer
    rw [TransferCustody_found t.now r _ _ _ _ _ _ _ evid hcase]
    exact repoSave_wf r _ hwf

/-- Any sequence of `TransferCustody` calls changes a stored record only
within the custody frame: every other field is left unchanged. -/
theorem applyTransfers_frame (ts : List TransferArgs) :
    ∀ (r : EvidenceRepo) (id : String) (ev : Evidence), repoWF r → r id = some ev →
      ∃ ev2, applyTransfers ts r id = some ev2 ∧ custodyFrame ev ev2 := by
  induction ts with
  | nil => exact fun r id ev _ h => ⟨ev, h, custodyFrame_refl ev⟩
  | cons t ts ih =>
      intro r id ev hwf hfind
      obtain ⟨ev1, h1, hf1⟩ := applyTransfer_frame r t id ev hwf hfind
      obtain ⟨ev2, h2, hf2⟩ := ih (applyTransfer r t) id ev1 (applyTransfer_wf r t hwf) h1
      exact ⟨ev2, h2, custodyFrame_trans hf1 hf2⟩

/-- `CreateDigitalEvidence` on a readable file succeeds and persists exactly
the embedded base record, with both hash fields frozen to the digest of the
file's bytes. -/
theorem CreateDigitalEvidence_eq (fs : FileSystem) (now : Nat) (r : EvidenceRepo)
    (de : DigitalEvidence) (bytes : Bytes) (hfile : fs de.filePath = some bytes) :
    CreateDigitalEvidence fs now r de =
      .ok (digitalWrapperRecord now de bytes, digitalBaseRecord now de bytes,
           repoSave r (digitalBaseRecord now de bytes)) := by
  simp [CreateDigitalEvidence, calculateFileHash, hfile, CreateEvidence_eq,
    digitalWrapperRecord, digitalBaseRecord]

/-! ## Concrete fixtures for witnesses and counterexamples -/

/-- A file system holding one file `exhibit.bin` with a single byte. -/
def sampleFS : FileSystem := fun p => if p = "exhibit.bin" then some [97] else none

/-- A file system with no readable files. -/
def noFS : FileSystem := fun _ => none

/-- A digital-evidence wrapper pointing at `exhibit.bin`. -/
def sampleDigital : DigitalEvidence :=
  { evidence := { zeroEvidence with
      id := "EV-1", caseID := "CASE-1", description := "disk image",
      collectedBy := "officer-a", storageLocation := "locker" }
    fileType := "", filePath := "exhibit.bin", fileSize := 0, creationDate := 0,
    modifiedDate := 0, deviceSource := "", originalHash := "", workingCopyHash := "",
    extractionMethod := "", encrypted := false, decrypted := false, password := "",
    metadata := [] }

/-- A bare digital-typed base record with no hash set. -/
def sampleDigitalRecord : Evidence :=
  { zeroEvidence with
    id := "EV-2", caseID := "CASE-1", description := "laptop image",
    type := TypeDigital, storageLocation := "locker" }

/-- A collection event for the released item below. -/
def sampleCollectedEvent : CustodyEvent :=
  { id := "CE-0", evidenceID := "EV-3", timestamp := 1, action := "COLLECTED",
    fromPerson := "", toPerson := "officer-a", fromLocation := "scene",
    toLocation := "locker", reason := "Initial collection", notes := "",
    documentID := "", authorizedBy := "", transportMethod := "", verificationMethod := "" }

/-- An item already in the terminal `RELEASED` status. -/
def releasedEvidence : Evidence :=
  { zeroEvidence with
    id := "EV-3", caseID := "CASE-1", description := "returned item",
    status := StatusReleased, storageLocation := "locker",
    chainOfCustody := [sampleCollectedEvent] }

/-- A repository holding only the released item. -/
def c3Repo : EvidenceRepo := repoSave emptyRepo releasedEvidence

/-- A record with an empty description and a dangling case ID. -/
def emptyDescrEvidence : Evidence :=
  { zeroEvidence with
    id := "EV-4", caseID := "CASE-404", type := TypePhysical,
    storageLocation := "locker" }

/-- A custody event already present on a stored item. -/
def c5Event : CustodyEvent :=
  { id := "CE-5", evidenceID := "EV-5", timestamp := 1, action := "COLLECTED",
    fromPerson := "", toPerson := "officer-a", fromLocation := "scene",
    toLocation := "locker", reason := "Initial collection", notes := "",
    documentID := "", authorizedBy := "", transportMethod := "", verificationMethod := "" }

/-- A stored item whose chain holds `c5Event`. -/
def c5Stored : Evidence :=
  { zeroEvidence with
    id := "EV-5", caseID := "CASE-1", description := "ledger item",
    storageLocation := "locker", chainOfCustody := [c5Event] }

/-- A repository holding only `c5Stored`. -/
def c5Repo : EvidenceRepo := repoSave emptyRepo c5Stored

/-- A custody event whose action is not `COLLECTED`. -/
def badFirstEvent : CustodyEvent :=
  { id := "CE-9", evidenceID := "EV-6", timestamp := 2, action := "TRANSFERRED",
    fromPerson := "officer-x", toPerson := "officer-y", fromLocation := "locker",
    toLocation := "lab", reason := "analysis", notes := "",
    documentID := "", authorizedBy := "", transportMethod := "", verificationMethod := "" }

/-- A record created with a pre-populated chain of custody. -/
def c6Bad : Evidence :=
  { zeroEvidence with
    id := "EV-6", caseID := "CASE-1", description := "pre-chained",
    storageLocation := "locker", chainOfCustody := [badFirstEvent] }

/-- A fresh record with an empty chain of custody. -/
def freshEvidence : Evidence :=
  { zeroEvidence with
    id := "EV-7", caseID := "CASE-1", description := "fresh item",
    collectedBy := "officer-a", storageLocation := "locker" }

/-- A record whose pre-populated chain points at a different location than its
storage location. -/
def c7Bad : Evidence :=
  { zeroEvidence with
    id := "EV-8", caseID := "CASE-1", description := "inconsistent",
    storageLocation := "locker", chainOfCustody := [badFirstEvent] }

/-- Arguments of a sample custody transfer. -/
def sampleTransfer : TransferArgs :=
  { now := 9, evidenceID := "EV-3", fromPerson := "officer-a", toPerson := "officer-b",
    fromLocation := "locker", toLocation := "lab", reason := "analysis", notes := "" }

/-! ## Claims -/

/-- C1: the integrity round-trip claimed by the spec does not run in the code.
Immediately after `CreateDigitalEvidence` on an unmodified file, the stored
item's type is `DIGITAL`, yet `VerifyIntegrity` reaches the comma-ok type
assertion to `DigitalEvidence` — which can never succeed on a `*Evidence`
value — and returns the conversion error instead of recomputing the digest
and returning a match (`true`). -/
theorem C1_verifyIntegrity_dead_assert (fs : FileSystem) (now : Nat) (r : EvidenceRepo)
    (de : DigitalEvidence) (bytes : Bytes) (hfile : fs de.filePath = some bytes) :
    CreateDigitalEvidence fs now r de =
      .ok (digitalWrapperRecord now de bytes, digitalBaseRecord now de bytes,
           repoSave r (digitalBaseRecord now de bytes)) ∧
    VerifyIntegrity fs (repoSave r (digitalBaseRecord now de bytes))
        (digitalBaseRecord now de bytes).id
      = .error "failed to convert to digital evidence type" := by
  refine ⟨CreateDigitalEvidence_eq fs now r de bytes hfile, ?_⟩
  have htype : (digitalBaseRecord now de bytes).type = TypeDigital := by
    unfold digitalBaseRecord
    rw [finalize_type]
  unfold VerifyIntegrity repoFind
  rw [repoSave_self]
  simp [htype, typeAssertDigitalEvidence, TypeDigital]

/-- C1 witness: the concrete scenario — a one-byte `exhibit.bin`, created as
digital evidence, then verified with the file untouched — yields the
conversion error, not a match. -/
theorem C1_verifyIntegrity_dead_assert_witness :
    CreateDigitalEvidence sampleFS 5 emptyRepo sampleDigital =
      .ok (digitalWrapperRecord 5 sampleDigital [97], digitalBaseRecord 5 sampleDigital [97],
           repoSave emptyRepo (digitalBaseRecord 5 sampleDigital [97])) ∧
    VerifyIntegrity sampleFS (repoSave emptyRepo (digitalBaseRecord 5 sampleDigital [97]))
        (digitalBaseRecord 5 sampleDigital [97]).id
      = .error "failed to convert to digital evidence type" :=
  C1_verifyIntegrity_dead_assert sampleFS 5 emptyRepo sampleDigital [97] rfl

/-- C2: the hash-freezing step of `CreateEvidence` never runs.  For a record
of type `DIGITAL` with an empty `fileHash`, `CreateEvidence` succeeds for ANY
file system — even one where hashing would fail — and persists the record
with `fileHash` still empty: no hash is computed or frozen, and a hashing
failure cannot abort creation because the guarded branch is dead. -/
theorem C2_createEvidence_digital_no_hash (fs : FileSystem) (now : Nat) (r : EvidenceRepo)
    (e0 : Evidence) (_htype : e0.type = TypeDigital) (hhash : e0.fileHash = "") :
    CreateEvidence fs now r e0 =
      .ok (finalizeEvidence now e0, repoSave r (finalizeEvidence now e0)) ∧
    (finalizeEvidence now e0).fileHash = "" ∧
    repoSave r (finalizeEvidence now e0) (finalizeEvidence now e0).id
      = some (finalizeEvidence now e0) := by
  refine ⟨CreateEvidence_eq fs now r e0, ?_, repoSave_self r (finalizeEvidence now e0)⟩
  rw [finalize_fileHash]
  exact hhash

/-- C2 witness: a digital record created against a file system with no
readable file at all is still persisted, with an empty hash and no error. -/
theorem C2_createEvidence_digital_no_hash_witness :
    sampleDigitalRecord.type = TypeDigital ∧
    CreateEvidence noFS 7 emptyRepo sampleDigitalRecord =
      .ok (finalizeEvidence 7 sampleDigitalRecord,
           repoSave emptyRepo (finalizeEvidence 7 sampleDigitalRecord)) ∧
    (finalizeEvidence 7 sampleDigitalRecord).fileHash = "" ∧
    repoSave emptyRepo (finalizeEvidence 7 sampleDigitalRecord)
        (finalizeEvidence 7 sampleDigitalRecord).id
      = some (finalizeEvidence 7 sampleDigitalRecord) :=
  ⟨rfl, C2_createEvidence_digital_no_hash noFS 7 emptyRepo sampleDigitalRecord rfl rfl⟩

/-- C3 counterexample: on an item whose status is the terminal `RELEASED`,
`TransferCustody` succeeds (no `EvidenceFinalized` error — that error exists
nowhere in the code) and the stored chain of custody grows from one event to
two. -/
theorem C3_terminal_lock_counterexample :
    releasedEvidence.status = StatusReleased ∧
    exceptIsOk (TransferCustody 9 c3Repo "EV-3" "officer-a" "officer-b" "locker" "lab"
      "analysis" "") = true ∧
    ((applyTransfer c3Repo sampleTransfer) "EV-3").map (fun e => e.chainOfCustody.length)
      = some 2 ∧
    (c3Repo "EV-3").map (fun e => e.chainOfCustody.length) = some 1 := by
  refine ⟨rfl, ?_, ?_, ?_⟩ <;> decide

/-- C3 (amended): `TransferCustody` enforces no terminal lock.  Even when the
item's status is `RELEASED` or `DESTROYED`, the call succeeds, appends one
`TRANSFERRED` custody event, and leaves the (terminal) status in place; no
`EvidenceFinalized` error exists in the code. -/
theorem C3_no_terminal_lock (now : Nat) (r : EvidenceRepo)
    (eid f t fl tl rs ns : String) (ev : Evidence) (hfind : r eid = some ev)
    (_hterm : ev.status = StatusReleased ∨ ev.status = StatusDestroyed) :
    TransferCustody now r eid f t fl tl rs ns
      = .ok (repoUpdate r (transferredRecord now ev eid f t fl tl rs ns)) ∧
    (transferredRecord now ev eid f t fl tl rs ns).chainOfCustody
      = ev.chainOfCustody ++ [transferEvent now eid f t fl tl rs ns] ∧
    (transferredRecord now ev eid f t fl tl rs ns).status = ev.status :=
  ⟨TransferCustody_found now r eid f t fl tl rs ns ev hfind, rfl, rfl⟩

/-- C3 amended witness: the released item accepts a further transfer. -/
theorem C3_no_terminal_lock_witness :
    TransferCustody 9 c3Repo "EV-3" "officer-a" "officer-b" "locker" "lab" "analysis" ""
      = .ok (repoUpdate c3Repo (transferredRecord 9 releasedEvidence "EV-3" "officer-a"
          "officer-b" "locker" "lab" "analysis" "")) ∧
    (transferredRecord 9 releasedEvidence "EV-3" "officer-a" "officer-b" "locker" "lab"
        "analysis" "").chainOfCustody
      = releasedEvidence.chainOfCustody
        ++ [transferEvent 9 "EV-3" "officer-a" "officer-b" "locker" "lab" "analysis" ""] ∧
    (transferredRecord 9 releasedEvidence "EV-3" "officer-a" "officer-b" "locker" "lab"
        "analysis" "").status = releasedEvidence.status :=
  C3_no_terminal_lock 9 c3Repo "EV-3" "officer-a" "officer-b" "locker" "lab" "analysis" ""
    releasedEvidence (by decide) (Or.inl rfl)

/-- C4 counterexample: `CreateEvidence` itself validates nothing — it accepts
an empty description and a case ID that resolves nowhere (its signature
consults no case store at all), persisting the record and its custody log. -/
theorem C4_no_service_validation_counterexample :
    emptyDescrEvidence.description = "" ∧
    CreateEvidence noFS 5 emptyRepo emptyDescrEvidence
      = .ok (finalizeEvidence 5 emptyDescrEvidence,
             repoSave emptyRepo (finalizeEvidence 5 emptyDescrEvidence)) ∧
    (finalizeEvidence 5 emptyDescrEvidence).description = "" ∧
    repoSave emptyRepo (finalizeEvidence 5 emptyDescrEvidence) "EV-4"
      = some (finalizeEvidence 5 emptyDescrEvidence) := by
  refine ⟨rfl, CreateEvidence_eq noFS 5 emptyRepo emptyDescrEvidence, ?_, ?_⟩ <;> decide

/-- C4 (amended): the validations live in the CLI handler
`handleEvidenceAdd`, not in `CreateEvidence`: the handler rejects an empty
description, and rejects a case ID that does not resolve, before ever calling
`CreateEvidence`; on rejection it exits, so no evidence record is persisted
and no custody log is created. -/
theorem C4_handler_validates (fs : FileSystem) (now : Nat) (cases : CaseRepo)
    (cur : String) (r : EvidenceRepo) (descr etype cid : String) :
    (descr = "" →
      handleEvidenceAdd fs now cases cur r descr etype cid
        = .error "Evidence description is required") ∧
    (descr ≠ "" → cid ≠ "" → cases cid = none →
      handleEvidenceAdd fs now cases cur r descr etype cid
        = .error ("Case not found: " ++ ("case not found: " ++ cid))) := by
  constructor
  · intro h
    unfold handleEvidenceAdd
    rw [if_pos h]
  · intro h1 h2 h3
    unfold handleEvidenceAdd caseGet
    rw [if_neg h1, if_neg (fun hc => h2 hc.1), if_neg h2]
    simp [h3]

/-- C4 amended witness: both handler rejections at concrete inputs. -/
theorem C4_handler_validates_witness :
    (handleEvidenceAdd noFS 5 (fun _ => none) "" emptyRepo "" "physical" "CASE-1"
      = .error "Evidence description is required") ∧
    (handleEvidenceAdd noFS 5 (fun _ => none) "" emptyRepo "seized phone" "physical" "CASE-404"
      = .error ("Case not found: " ++ ("case not found: " ++ "CASE-404"))) :=
  ⟨(C4_handler_validates noFS 5 (fun _ => none) "" emptyRepo "" "physical" "CASE-1").1 rfl,
   (C4_handler_validates noFS 5 (fun _ => none) "" emptyRepo "seized phone" "physical"
      "CASE-404").2 (by decide) (by decide) rfl⟩

/-- C5 counterexample: custody events ARE stored as a mutable inline field of
the evidence record, and the service's own `UpdateEvidence` rewrites it
wholesale — here removing the one past entry, so the previously returned
sequence `[c5Event]` is no longer a prefix of the stored history. -/
theorem C5_append_only_counterexample :
    (c5Repo "EV-5").map (fun e => e.chainOfCustody) = some [c5Event] ∧
    UpdateEvidence 9 c5Repo { c5Stored with chainOfCustody := [] }
      = .ok (repoUpdate c5Repo
          { { c5Stored with chainOfCustody := [] } with updatedAt := 9 }) ∧
    ((repoUpdate c5Repo { { c5Stored with chainOfCustody := [] } with updatedAt := 9 })
        "EV-5").map (fun e => e.chainOfCustody) = some [] := by
  refine ⟨by decide, rfl, by decide⟩

/-- C5 (amended): `TransferCustody` itself only appends — after a transfer
the stored chain is exactly the old chain with one new event at the end, so
the old sequence is an unchanged prefix.  But the chain is an ordinary inline
field of the record (`ChainOfCustody`), and `UpdateEvidence` persists any
caller-supplied record verbatim, so past entries can be edited or removed
through the service. -/
theorem C5_transfer_appends (now : Nat) (r : EvidenceRepo) (eid f t fl tl rs ns : String)
    (ev : Evidence) (hwf : repoWF r) (hfind : r eid = some ev) :
    TransferCustody now r eid f t fl tl rs ns
      = .ok (repoUpdate r (transferredRecord now ev eid f t fl tl rs ns)) ∧
    (repoUpdate r (transferredRecord now ev eid f t fl tl rs ns)) eid
      = some (transferredRecord now ev eid f t fl tl rs ns) ∧
    (transferredRecord now ev eid f t fl tl rs ns).chainOfCustody
      = ev.chainOfCustody ++ [transferEvent now eid f t fl tl rs ns] ∧
    (∀ e2, UpdateEvidence now r e2 = .ok (repoUpdate r { e2 with updatedAt := now })) := by
  refine ⟨TransferCustody_found now r eid f t fl tl rs ns ev hfind, ?_, rfl, fun _ => rfl⟩
  have hid : (transferredRecord now ev eid f t fl tl rs ns).id = eid := hwf eid ev hfind
  simp [repoUpdate, repoSave, hid]

/-- C5 amended witness: appending to the stored item with one prior event. -/
theorem C5_transfer_appends_witness :
    TransferCustody 9 c5Repo "EV-5" "officer-a" "officer-b" "locker" "lab" "analysis" ""
      = .ok (repoUpdate c5Repo (transferredRecord 9 c5Stored "EV-5" "officer-a" "officer-b"
          "locker" "lab" "analysis" "")) ∧
    (repoUpdate c5Repo (transferredRecord 9 c5Stored "EV-5" "officer-a" "officer-b"
        "locker" "lab" "analysis" "")) "EV-5"
      = some (transferredRecord 9 c5Stored "EV-5" "officer-a" "officer-b" "locker" "lab"
          "analysis" "") ∧
    (transferredRecord 9 c5Stored "EV-5" "officer-a" "officer-b" "locker" "lab" "analysis"
        "").chainOfCustody
      = c5Stored.chainOfCustody
        ++ [transferEvent 9 "EV-5" "officer-a" "officer-b" "locker" "lab" "analysis" ""] ∧
    (∀ e2, UpdateEvidence 9 c5Repo e2 = .ok (repoUpdate c5Repo { e2 with updatedAt := 9 })) :=
  C5_transfer_appends 9 c5Repo "EV-5" "officer-a" "officer-b" "locker" "lab" "analysis" ""
    c5Stored (repoSave_wf emptyRepo c5Stored emptyRepo_wf) (by decide)

/-- C6 counterexample: `CreateEvidence` only installs the `COLLECTED` event
when the incoming chain is empty; a record created with a pre-populated chain
keeps it, so its first stored event is `TRANSFERRED` from `officer-x`, not
`COLLECTED` with an empty `fromPerson`. -/
theorem C6_first_event_counterexample :
    CreateEvidence noFS 5 emptyRepo c6Bad
      = .ok (finalizeEvidence 5 c6Bad, repoSave emptyRepo (finalizeEvidence 5 c6Bad)) ∧
    ((finalizeEvidence 5 c6Bad).chainOfCustody.head?.map (fun c => c.action))
      = some "TRANSFERRED" ∧
    ((finalizeEvidence 5 c6Bad).chainOfCustody.head?.map (fun c => c.fromPerson))
      = some "officer-x" := by
  exact ⟨CreateEvidence_eq noFS 5 emptyRepo c6Bad, by decide, by decide⟩

/-- C6 (amended): for every evidence item created through `CreateEvidence`
with an empty chain of custody, the persisted record's first custody event
has action `COLLECTED` and an empty `fromPerson`. -/
theorem C6_first_event (fs : FileSystem) (now : Nat) (r : EvidenceRepo) (e0 : Evidence)
    (hchain : e0.chainOfCustody = []) :
    CreateEvidence fs now r e0
      = .ok (finalizeEvidence now e0, repoSave r (finalizeEvidence now e0)) ∧
    ((finalizeEvidence now e0).chainOfCustody.head?.map (fun c => c.action))
      = some "COLLECTED" ∧
    ((finalizeEvidence now e0).chainOfCustody.head?.map (fun c => c.fromPerson))
      = some "" := by
  refine ⟨CreateEvidence_eq fs now r e0, ?_, ?_⟩ <;>
    rw [finalize_chain_of_empty now e0 hchain] <;> rfl

/-- C6 amended witness: a fresh record gets the collection event first. -/
theorem C6_first_event_witness :
    CreateEvidence noFS 5 emptyRepo freshEvidence
      = .ok (finalizeEvidence 5 freshEvidence,
             repoSave emptyRepo (finalizeEvidence 5 freshEvidence)) ∧
    ((finalizeEvidence 5 freshEvidence).chainOfCustody.head?.map (fun c => c.action))
      = some "COLLECTED" ∧
    ((finalizeEvidence 5 freshEvidence).chainOfCustody.head?.map (fun c => c.fromPerson))
      = some "" :=
  C6_first_event noFS 5 emptyRepo freshEvidence rfl

/-- C7 counterexample: creating a record whose pre-populated chain ends at
`lab` while its storage location says `locker` persists an inconsistent item:
the storage location differs from the last custody event's `toLocation`. -/
theorem C7_location_counterexample :
    CreateEvidence noFS 5 emptyRepo c7Bad
      = .ok (finalizeEvidence 5 c7Bad, repoSave emptyRepo (finalizeEvidence 5 c7Bad)) ∧
    locationConsistent (finalizeEvidence 5 c7Bad) = false := by
  exact ⟨CreateEvidence_eq noFS 5 emptyRepo c7Bad, by decide⟩

/-- C7 (amended): location consistency holds after `CreateEvidence` on a
record with an empty chain (the initial event's `toLocation` is the storage
location) and is re-established by every successful `TransferCustody` (the
appended event's `toLocation` is the new storage location); it is not
enforced for records created with a pre-populated chain, nor by
`UpdateEvidence`. -/
theorem C7_location_consistency (fs : FileSystem) (now now2 : Nat) (r r2 : EvidenceRepo)
    (e0 ev : Evidence) (eid f t fl tl rs ns : String)
    (hchain : e0.chainOfCustody = []) (hfind : r2 eid = some ev) :
    CreateEvidence fs now r e0
      = .ok (finalizeEvidence now e0, repoSave r (finalizeEvidence now e0)) ∧
    locationConsistent (finalizeEvidence now e0) = true ∧
    TransferCustody now2 r2 eid f t fl tl rs ns
      = .ok (repoUpdate r2 (transferredRecord now2 ev eid f t fl tl rs ns)) ∧
    locationConsistent (transferredRecord now2 ev eid f t fl tl rs ns) = true := by
  refine ⟨CreateEvidence_eq fs now r e0, ?_,
    TransferCustody_found now2 r2 eid f t fl tl rs ns ev hfind, ?_⟩
  · unfold locationConsistent
    rw [finalize_chain_of_empty now e0 hchain]
    have hs : (finalizeEvidence now e0).storageLocation
        = (defaultStatus (stampTimes now (assignID now e0))).storageLocation := by
      unfold finalizeEvidence
      rw [initChain_storage]
    simp [initialCustodyEvent, hs]
  · unfold locationConsistent transferredRecord
    simp [transferEvent]

/-- C7 amended witness: fresh creation and a transfer on the stored item. -/
theorem C7_location_consistency_witness :
    CreateEvidence noFS 5 emptyRepo freshEvidence
      = .ok (finalizeEvidence 5 freshEvidence,
             repoSave emptyRepo (finalizeEvidence 5 freshEvidence)) ∧
    locationConsistent (finalizeEvidence 5 freshEvidence) = true ∧
    TransferCustody 9 c5Repo "EV-5" "officer-a" "officer-b" "locker" "lab" "analysis" ""
      = .ok (repoUpdate c5Repo (transferredRecord 9 c5Stored "EV-5" "officer-a" "officer-b"
          "locker" "lab" "analysis" "")) ∧
    locationConsistent (transferredRecord 9 c5Stored "EV-5" "officer-a" "officer-b"
        "locker" "lab" "analysis" "") = true :=
  C7_location_consistency noFS 5 9 emptyRepo c5Repo freshEvidence c5Stored "EV-5" "officer-a"
    "officer-b" "locker" "lab" "analysis" "" rfl (by decide)

/-- C8: `TransferCustody` postcondition.  On a missing ID it fails with the
wrapped not-found error (returning before any write, so the store is
unchanged); on a present item it writes back exactly the old record with one
`TRANSFERRED` event appended — carrying the given people, locations, reason
and notes — the storage location moved to `toLocation`, and `updatedAt`
stamped with the current instant. -/
theorem C8_transferCustody_post (now : Nat) (r : EvidenceRepo)
    (eid f t fl tl rs ns : String) (hwf : repoWF r) :
    (r eid = none →
      TransferCustody now r eid f t fl tl rs ns
        = .error ("failed to find evidence: " ++ ("evidence not found: " ++ eid))) ∧
    (∀ ev, r eid = some ev →
      TransferCustody now r eid f t fl tl rs ns
        = .ok (repoUpdate r (transferredRecord now ev eid f t fl tl rs ns)) ∧
      (repoUpdate r (transferredRecord now ev eid f t fl tl rs ns)) eid
        = some (transferredRecord now ev eid f t fl tl rs ns) ∧
      (transferredRecord now ev eid f t fl tl rs ns).chainOfCustody
        = ev.chainOfCustody ++ [transferEvent now eid f t fl tl rs ns] ∧
      (transferredRecord now ev eid f t fl tl rs ns).storageLocation = tl ∧
      (transferredRecord now ev eid f t fl tl rs ns).updatedAt = now ∧
      (transferEvent now eid f t fl tl rs ns).action = "TRANSFERRED" ∧
      (transferEvent now eid f t fl tl rs ns).fromPerson = f ∧
      (transferEvent now eid f t fl tl rs ns).toPerson = t ∧
      (transferEvent now eid f t fl tl rs ns).fromLocation = fl ∧
      (transferEvent now eid f t fl tl rs ns).toLocation = tl ∧
      (transferEvent now eid f t fl tl rs ns).reason = rs ∧
      (transferEvent now eid f t fl tl rs ns).notes = ns) := by
  constructor
  · intro hnone
    exact TransferCustody_missing now r eid f t fl tl rs ns hnone
  · intro ev hfind
    have hid : (transferredRecord now ev eid f t fl tl rs ns).id = eid := hwf eid ev hfind
    exact ⟨TransferCustody_found now r eid f t fl tl rs ns ev hfind,
      by simp [repoUpdate, repoSave, hid], rfl, rfl, rfl, rfl, rfl, rfl, rfl, rfl, rfl, rfl⟩

/-- C8 witness: both branches at concrete inputs — a missing ID on the empty
repository, and the stored item `EV-5`. -/
theorem C8_transferCustody_post_witness :
    (TransferCustody 9 emptyRepo "EV-404" "a" "b" "x" "y" "" ""
      = .error ("failed to find evidence: " ++ ("evidence not found: " ++ "EV-404"))) ∧
    (TransferCustody 9 c5Repo "EV-5" "officer-a" "officer-b" "locker" "lab" "analysis" ""
      = .ok (repoUpdate c5Repo (transferredRecord 9 c5Stored "EV-5" "officer-a" "officer-b"
          "locker" "lab" "analysis" ""))) :=
  ⟨(C8_transferCustody_post 9 emptyRepo "EV-404" "a" "b" "x" "y" "" "" emptyRepo_wf).1 rfl,
   ((C8_transferCustody_post 9 c5Repo "EV-5" "officer-a" "officer-b" "locker" "lab"
      "analysis" "" (repoSave_wf emptyRepo c5Stored emptyRepo_wf)).2 c5Stored (by decide)).1⟩

/-- C9 counterexample: the frozen hash is not protected from every later
service operation.  `CreateDigitalEvidence` freezes the persisted `fileHash`
to the digest of `exhibit.bin`, but one `UpdateEvidence` call with a
caller-supplied record carrying `fileHash = "tampered"` persists that record
verbatim, and the stored baseline no longer equals the creation-time digest —
refuting "never overwritten by any subsequent operation". -/
theorem C9_hash_freeze_counterexample :
    CreateDigitalEvidence sampleFS 5 emptyRepo sampleDigital
      = .ok (digitalWrapperRecord 5 sampleDigital [97], digitalBaseRecord 5 sampleDigital [97],
             repoSave emptyRepo (digitalBaseRecord 5 sampleDigital [97])) ∧
    (digitalBaseRecord 5 sampleDigital [97]).fileHash = sha256Hex [97] ∧
    UpdateEvidence 9 (repoSave emptyRepo (digitalBaseRecord 5 sampleDigital [97]))
        { digitalBaseRecord 5 sampleDigital [97] with fileHash := "tampered" }
      = .ok (repoUpdate (repoSave emptyRepo (digitalBaseRecord 5 sampleDigital [97]))
          { { digitalBaseRecord 5 sampleDigital [97] with fileHash := "tampered" } with
            updatedAt := 9 }) ∧
    ((repoUpdate (repoSave emptyRepo (digitalBaseRecord 5 sampleDigital [97]))
          { { digitalBaseRecord 5 sampleDigital [97] with fileHash := "tampered" } with
            updatedAt := 9 })
        (digitalBaseRecord 5 sampleDigital [97]).id).map (fun e => e.fileHash)
      = some "tampered" ∧
    "tampered" ≠ sha256Hex [97] := by
  refine ⟨CreateDigitalEvidence_eq sampleFS 5 emptyRepo sampleDigital [97] rfl, ?_, rfl,
    rfl, by decide⟩
  unfold digitalBaseRecord
  rw [finalize_fileHash]

/-- C9 (amended): hash freeze at creation and under transfers.
`CreateDigitalEvidence` sets both the persisted record's `fileHash` and the
wrapper's `originalHash` to the SHA-256 digest of the file's bytes at
creation, and after any sequence of `TransferCustody` calls the stored record
still carries that digest, with every field other than the chain of custody,
the storage location and `updatedAt` unchanged (the custody-frame relation).
The freeze does NOT extend to every subsequent operation: `UpdateEvidence`
persists any caller-supplied record verbatim, stamping only `updatedAt`, so a
later update can replace the frozen hash through the service. -/
theorem C9_hash_freeze (fs : FileSystem) (now : Nat) (r : EvidenceRepo)
    (de : DigitalEvidence) (bytes : Bytes) (ts : List TransferArgs)
    (hwf : repoWF r) (hfile : fs de.filePath = some bytes) :
    CreateDigitalEvidence fs now r de
      = .ok (digitalWrapperRecord now de bytes, digitalBaseRecord now de bytes,
             repoSave r (digitalBaseRecord now de bytes)) ∧
    (digitalBaseRecord now de bytes).fileHash = sha256Hex bytes ∧
    (digitalWrapperRecord now de bytes).originalHash = sha256Hex bytes ∧
    (∃ ev2, applyTransfers ts (repoSave r (digitalBaseRecord now de bytes))
        (digitalBaseRecord now de bytes).id = some ev2 ∧
      custodyFrame (digitalBaseRecord now de bytes) ev2 ∧
      ev2.fileHash = sha256Hex bytes) ∧
    (∀ now2 r2 e2, UpdateEvidence now2 r2 e2
      = .ok (repoUpdate r2 { e2 with updatedAt := now2 })) := by
  have hbase : (digitalBaseRecord now de bytes).fileHash = sha256Hex bytes := by
    unfold digitalBaseRecord
    rw [finalize_fileHash]
  refine ⟨CreateDigitalEvidence_eq fs now r de bytes hfile, hbase, rfl, ?_,
    fun _ _ _ => rfl⟩
  obtain ⟨ev2, hlook, hframe⟩ := applyTransfers_frame ts
    (repoSave r (digitalBaseRecord now de bytes)) (digitalBaseRecord now de bytes).id
    (digitalBaseRecord now de bytes)
    (repoSave_wf r (digitalBaseRecord now de bytes) hwf)
    (repoSave_self r (digitalBaseRecord now de bytes))
  exact ⟨ev2, hlook, hframe, by rw [custodyFrame_fileHash hframe, hbase]⟩

/-- C9 amended witness: create from `exhibit.bin` and run one concrete
transfer. -/
theorem C9_hash_freeze_witness :
    CreateDigitalEvidence sampleFS 5 emptyRepo sampleDigital
      = .ok (digitalWrapperRecord 5 sampleDigital [97], digitalBaseRecord 5 sampleDigital [97],
             repoSave emptyRepo (digitalBaseRecord 5 sampleDigital [97])) ∧
    (digitalBaseRecord 5 sampleDigital [97]).fileHash = sha256Hex [97] ∧
    (digitalWrapperRecord 5 sampleDigital [97]).originalHash = sha256Hex [97] ∧
    (∃ ev2, applyTransfers [sampleTransfer]
        (repoSave emptyRepo (digitalBaseRecord 5 sampleDigital [97]))
        (digitalBaseRecord 5 sampleDigital [97]).id = some ev2 ∧
      custodyFrame (digitalBaseRecord 5 sampleDigital [97]) ev2 ∧
      ev2.fileHash = sha256Hex [97]) ∧
    (∀ now2 r2 e2, UpdateEvidence now2 r2 e2
      = .ok (repoUpdate r2 { e2 with updatedAt := now2 })) :=
  C9_hash_freeze sampleFS 5 emptyRepo sampleDigital [97] [sampleTransfer] emptyRepo_wf rfl

/-- C10: what `CreateDigitalEvidence` persists is exactly the embedded base
`Evidence` value, which carries only `fileHash` — changing the wrapper's
`originalHash` before creation yields the very same persisted record and
repository, because `originalHash` lives only on the caller's wrapper and the
base struct has no such field.  And the hash comparison of `VerifyIntegrity`
(its dead digital branch) tests the current digest against the stored
record's `fileHash`. -/
theorem C10_originalHash_not_persisted (fs : FileSystem) (now : Nat) (r : EvidenceRepo)
    (de : DigitalEvidence) (bytes : Bytes) (x : String)
    (hfile : fs de.filePath = some bytes) :
    CreateDigitalEvidence fs now r de
      = .ok (digitalWrapperRecord now de bytes, digitalBaseRecord now de bytes,
             repoSave r (digitalBaseRecord now de bytes)) ∧
    repoSave r (digitalBaseRecord now de bytes) (digitalBaseRecord now de bytes).id
      = some (digitalBaseRecord now de bytes) ∧
    CreateDigitalEvidence fs now r { de with originalHash := x }
      = .ok (digitalWrapperRecord now de bytes, digitalBaseRecord now de bytes,
             repoSave r (digitalBaseRecord now de bytes)) ∧
    (∀ h2, verifyIntegrityCompare h2 (digitalBaseRecord now de bytes)
      = (h2 == sha256Hex bytes)) := by
  refine ⟨CreateDigitalEvidence_eq fs now r de bytes hfile,
    repoSave_self r (digitalBaseRecord now de bytes),
    CreateDigitalEvidence_eq fs now r { de with originalHash := x } bytes hfile, ?_⟩
  intro h2
  unfold verifyIntegrityCompare
  rw [digitalBaseRecord, finalize_fileHash]

/-- C10 witness: the persisted record and repository are identical whether
the wrapper's `originalHash` starts empty or pre-set to `deadbeef`. -/
theorem C10_originalHash_not_persisted_witness :
    CreateDigitalEvidence sampleFS 5 emptyRepo sampleDigital
      = .ok (digitalWrapperRecord 5 sampleDigital [97], digitalBaseRecord 5 sampleDigital [97],
             repoSave emptyRepo (digitalBaseRecord 5 sampleDigital [97])) ∧
    repoSave emptyRepo (digitalBaseRecord 5 sampleDigital [97])
        (digitalBaseRecord 5 sampleDigital [97]).id
      = some (digitalBaseRecord 5 sampleDigital [97]) ∧
    CreateDigitalEvidence sampleFS 5 emptyRepo { sampleDigital with originalHash := "deadbeef" }
      = .ok (digitalWrapperRecord 5 sampleDigital [97], digitalBaseRecord 5 sampleDigital [97],
             repoSave emptyRepo (digitalBaseRecord 5 sampleDigital [97])) ∧
    (∀ h2, verifyIntegrityCompare h2 (digitalBaseRecord 5 sampleDigital [97])
      = (h2 == sha256Hex [97])) :=
  C10_originalHash_not_persisted sampleFS 5 emptyRepo sampleDigital [97] "deadbeef" rfl

end Ledger
